import Mathlib

/-!
Verification of the refprop-sys safety/marshaling layer.

Shallow embedding conventions:
* `f64` values are modelled as exact rationals (`ℚ`).  The routines under
  verification never do floating-point arithmetic beyond summing a slice and
  comparing against literal constants; the literals involved
  (`-9999990.0`, `-9999980.0`, `1.0`) are exactly representable, and the
  tolerance `1e-6` is modelled by its decimal value `1/1000000`.
* C strings are modelled as `List Nat` (byte values); `CString::new` fails
  exactly when the byte `0` occurs in the input.
* The native library (REFPROP) is an external oracle: a `NativeEnv` record
  holds the values the native routines leave in the output locations, the
  poisoned-state of the process-wide mutex, and the decoding result of the
  error-message buffer.  Each field of `NativeEnv.flash` is the value left in
  the corresponding local variable after the native flash routine returns.
* Each operation returns its result together with the list of `Event`s it
  performed, in order: `Event.acquire` marks the call to `acquire_lock`
  (the process-wide gate), `Event.nativeCall name` marks an FFI call into
  the native entry point `name`.
* A Rust `panic!` (out-of-bounds index, `unwrap` on `Err`) is modelled by the
  whole operation returning `none` (result type wrapped in `Option`).
-/

namespace RefpropSys

/-- Error taxonomy, from src/errors.rs (`RefpropError`). -/
inductive RefpropError where
  | InitializationError : String → RefpropError
  | CalculationError : String → RefpropError
  | InvalidInput : String → RefpropError
  | Utf8Error : RefpropError
  | MutexPoisoned : RefpropError
  | UnknownError : String → RefpropError
deriving DecidableEq, Repr

/-- Reserved sentinel for an undefined isochoric heat capacity, src/lib.rs line 16. -/
def CV_UNDEFINED : ℚ := -9999990

/-- Reserved sentinel for an undefined isobaric heat capacity, src/lib.rs line 17. -/
def CP_UNDEFINED : ℚ := -9999980

/-- True exactly on `Except.error (RefpropError.InvalidInput _)`. -/
def isInvalidInput {α : Type} : Except RefpropError α → Bool
  | .error (.InvalidInput _) => true
  | _ => false

/-- True exactly on `Except.error (RefpropError.CalculationError _)`. -/
def isCalcError {α : Type} : Except RefpropError α → Bool
  | .error (.CalculationError _) => true
  | _ => false

/-- Composition validator, src/utils.rs lines 17-31 (`validate_composition`):
length at most 20, element sum within `1e-6` of `1.0`. -/
def validate_composition (z : List ℚ) : Except RefpropError Unit :=
  if z.length > 20 then
    .error (.InvalidInput "Composition slice z length exceeds 20.")
  else if |z.sum - 1| > 1/1000000 then
    .error (.InvalidInput "Sum of mole fractions in z does not equal 1 within tolerance.")
  else
    .ok ()

/-- Error translator, src/utils.rs lines 52-81 (`check_refprop_error`).
`decoded` models the UTF-8 decoding of the message buffer after `ERRMSGdll`
has written into it (`none` = invalid encoding).  The returned `Bool` records
whether the second native call (`ERRMSGdll`) was issued. -/
def check_refprop_error (ierr : Int) (decoded : Option String) :
    Except RefpropError Unit × Bool :=
  if ierr ≠ 0 then
    match decoded with
    | some msg => (.error (.CalculationError msg), true)
    | none => (.error .Utf8Error, true)
  else
    (.ok (), false)

/-- Observable steps of an operation: acquiring the process-wide mutex, and
calls into named native entry points. -/
inductive Event where
  | acquire : Event
  | nativeCall : String → Event
deriving DecidableEq, Repr

/-- Values left by a native flash routine in the locals of the wrapper after
the FFI call returns (the wrapper passes pointers to all of them). -/
structure FlashRaw where
  T : ℚ
  P : ℚ
  D : ℚ
  Dl : ℚ
  Dv : ℚ
  x : List ℚ
  y : List ℚ
  q : ℚ
  e : ℚ
  h : ℚ
  s : ℚ
  Cv : ℚ
  Cp : ℚ
  w : ℚ
  ierr : Int
deriving DecidableEq, Repr

/-- Oracle for the native library and the process-wide mutex. -/
structure NativeEnv where
  poisoned : Bool
  flash : FlashRaw
  errmsgDecoded : Option String
  wmol : ℚ
  xmassX : List ℚ
  xmassWmix : ℚ
  xmolX : List ℚ
  xmolWmix : ℚ
  setfluidsIerr : Int
  rpPathVar : Option (List Nat)
deriving DecidableEq, Repr

/-- Gate acquisition, src/utils.rs lines 8-15 (`acquire_lock`): fails with
`MutexPoisoned` when a previous holder panicked. -/
def acquire_lock (env : NativeEnv) : Except RefpropError Unit :=
  if env.poisoned then .error .MutexPoisoned else .ok ()

/-- Result record of a flash operation, src/flash_routines.rs (`FlashOutput`).
The two heat-capacity fields are optional. -/
structure FlashOutput where
  T : ℚ
  P : ℚ
  D : ℚ
  Dl : ℚ
  Dv : ℚ
  x : List ℚ
  y : List ℚ
  q : ℚ
  e : ℚ
  h : ℚ
  s : ℚ
  Cv : Option ℚ
  Cp : Option ℚ
  w : ℚ
deriving DecidableEq, Repr

/-- Basis selector, src/lib.rs lines 86-94 (discriminants 0, 1, 2). -/
inductive Basis where
  | Molar
  | Mass
  | MassExceptComposition
deriving DecidableEq, Repr

/-- Discriminant of `Basis`, as read by `imass_flag as i32`. -/
def Basis.toInt : Basis → Int
  | .Molar => 0
  | .Mass => 1
  | .MassExceptComposition => 2

/-- Phase hint, src/lib.rs lines 96-106 (discriminants 0-3). -/
inductive Phase where
  | Unknown
  | Liquid
  | Vapor
  | TwoPhase
deriving DecidableEq, Repr

/-- Discriminant of `Phase`, as read by `kph_flag as i32`. -/
def Phase.toInt : Phase → Int
  | .Unknown => 0
  | .Liquid => 1
  | .Vapor => 2
  | .TwoPhase => 3

/-- Quality-basis / root-selection flag, src/lib.rs lines 108-121
(discriminants 0-4). -/
inductive KrKqFlag where
  | Default
  | QualityMolar
  | QualityMass
  | LowerDensity
  | HigherDensity
deriving DecidableEq, Repr

/-- Discriminant of `KrKqFlag`, as read by `krkq_flag as i32`. -/
def KrKqFlag.toInt : KrKqFlag → Int
  | .Default => 0
  | .QualityMolar => 1
  | .QualityMass => 2
  | .LowerDensity => 3
  | .HigherDensity => 4

/-- Composite-flag encoding `opt0 + 10*opt1 + 100*opt2`, the expression at
src/flash_routines/ab_flash.rs line 127 and src/flash_routines/pq_flash.rs
line 56. -/
def encode_flags (opt0 opt1 opt2 : Int) : Int :=
  opt0 + 10 * opt1 + 100 * opt2

/-- The `iflag` integer built by `ab_flash` (ab_flash.rs line 127). -/
def ab_flash_iflag (imass : Basis) (kph : Phase) (krkq : KrKqFlag) : Int :=
  encode_flags imass.toInt kph.toInt krkq.toInt

/-- The `iflag` integer built by `pq_flash` (pq_flash.rs line 56). -/
def pq_flash_iflag (imass : Basis) (kph : Phase) (krkq : KrKqFlag) : Int :=
  encode_flags imass.toInt kph.toInt krkq.toInt

/-- Pressure/enthalpy flash, src/flash_routines/ph_flash.rs (`ph_flash`):
validate composition, acquire gate, call `PHFLSHdll`, translate the error
code, convert each heat capacity against its own sentinel only
(lines 117-118), truncate `x`/`y` to the caller's length. -/
def ph_flash (P h : ℚ) (z : List ℚ) (env : NativeEnv) :
    Except RefpropError FlashOutput × List Event :=
  match validate_composition z with
  | .error err => (.error err, [])
  | .ok _ =>
    match acquire_lock env with
    | .error err => (.error err, [.acquire])
    | .ok _ =>
      let raw := env.flash
      match check_refprop_error raw.ierr env.errmsgDecoded with
      | (.error err, _) =>
        (.error err, [.acquire, .nativeCall "PHFLSHdll", .nativeCall "ERRMSGdll"])
      | (.ok _, _) =>
        let Cv := if raw.Cv = CV_UNDEFINED then none else some raw.Cv
        let Cp := if raw.Cp = CP_UNDEFINED then none else some raw.Cp
        (.ok { T := raw.T, P := raw.P, D := raw.D, Dl := raw.Dl, Dv := raw.Dv,
               x := raw.x.take z.length, y := raw.y.take z.length,
               q := raw.q, e := raw.e, h := raw.h, s := raw.s,
               Cv := Cv, Cp := Cp, w := raw.w },
         [.acquire, .nativeCall "PHFLSHdll"])

/-- Temperature/enthalpy flash, src/flash_routines/th_flash.rs (`th_flash`):
validate composition, check the root-selection flag `kr` against {1, 2}
(lines 43-47) before acquiring the gate, call `THFLSHdll`, translate the
error code, convert each heat capacity against its own sentinel only
(lines 127-128). -/
def th_flash (T h : ℚ) (z : List ℚ) (kr : Int) (env : NativeEnv) :
    Except RefpropError FlashOutput × List Event :=
  match validate_composition z with
  | .error err => (.error err, [])
  | .ok _ =>
    if kr ≠ 1 ∧ kr ≠ 2 then
      (.error (.InvalidInput "Parameter kr must be either 1 or 2."), [])
    else
      match acquire_lock env with
      | .error err => (.error err, [.acquire])
      | .ok _ =>
        let raw := env.flash
        match check_refprop_error raw.ierr env.errmsgDecoded with
        | (.error err, _) =>
          (.error err, [.acquire, .nativeCall "THFLSHdll", .nativeCall "ERRMSGdll"])
        | (.ok _, _) =>
          let Cv := if raw.Cv = CV_UNDEFINED then none else some raw.Cv
          let Cp := if raw.Cp = CP_UNDEFINED then none else some raw.Cp
          (.ok { T := raw.T, P := raw.P, D := raw.D, Dl := raw.Dl, Dv := raw.Dv,
                 x := raw.x.take z.length, y := raw.y.take z.length,
                 q := raw.q, e := raw.e, h := raw.h, s := raw.s,
                 Cv := Cv, Cp := Cp, w := raw.w },
           [.acquire, .nativeCall "THFLSHdll"])

/-- Characters accepted in the `ab` property-pair string,
src/flash_routines/ab_flash.rs line 105. -/
def validChars : List Char := ['T', 'P', 'D', 'E', 'H', 'S', 'Q']

/-- General flash, src/flash_routines/ab_flash.rs (`ab_flash`): validate the
`ab` string shape (lines 98-114), validate composition, acquire the gate,
re-check the uppercased `ab` string for null bytes (line 123, inside the
critical section), build the composite flag, call `ABFLSHdll`, translate the
error code, convert each heat capacity against BOTH sentinels
(lines 219-228). -/
def ab_flash (ab : List Char) (a b : ℚ) (z : List ℚ)
    (imass : Basis) (kph : Phase) (krkq : KrKqFlag) (env : NativeEnv) :
    Except RefpropError FlashOutput × List Event :=
  if ab.length ≠ 2 then
    (.error (.InvalidInput "ab string must be exactly two characters long"), [])
  else
    let abU := ab.map Char.toUpper
    if (abU.find? fun c => !(validChars.contains c)).isSome then
      (.error (.InvalidInput "Invalid character in ab string"), [])
    else
      match validate_composition z with
      | .error err => (.error err, [])
      | .ok _ =>
        match acquire_lock env with
        | .error err => (.error err, [.acquire])
        | .ok _ =>
          if Char.ofNat 0 ∈ abU then
            (.error (.InvalidInput "ab contains null byte"), [.acquire])
          else
            let _iflag := ab_flash_iflag imass kph krkq
            let raw := env.flash
            match check_refprop_error raw.ierr env.errmsgDecoded with
            | (.error err, _) =>
              (.error err, [.acquire, .nativeCall "ABFLSHdll", .nativeCall "ERRMSGdll"])
            | (.ok _, _) =>
              let Cv := if raw.Cv = CV_UNDEFINED ∨ raw.Cv = CP_UNDEFINED then
                  none
                else
                  some raw.Cv
              let Cp := if raw.Cp = CP_UNDEFINED ∨ raw.Cp = CV_UNDEFINED then
                  none
                else
                  some raw.Cp
              (.ok { T := raw.T, P := raw.P, D := raw.D, Dl := raw.Dl, Dv := raw.Dv,
                     x := raw.x.take z.length, y := raw.y.take z.length,
                     q := raw.q, e := raw.e, h := raw.h, s := raw.s,
                     Cv := Cv, Cp := Cp, w := raw.w },
               [.acquire, .nativeCall "ABFLSHdll"])

/-- The null-terminated byte sequence of the fluids string (`c_bytes` in
src/setup/set_fluids.rs line 67). -/
def set_fluids_bytes (fluids : List Nat) : List Nat :=
  fluids ++ [0]

/-- Number of bytes copied into the fixed 10000-byte field
(src/setup/set_fluids.rs lines 70-74): the full null-terminated string when it
fits, else the first 9999 bytes. -/
def set_fluids_bytes_to_copy (fluids : List Nat) : Nat :=
  if (set_fluids_bytes fluids).length > 10000 then 9999
  else (set_fluids_bytes fluids).length

/-- Content of the fixed 10000-byte `hfld` field passed to `SETFLUIDSdll`
(src/setup/set_fluids.rs lines 64-81): the copied prefix, zero-padded.  The
explicit write `buffer[bytes_to_copy] = 0` (line 81) lands on a byte that is
already zero whenever it is in bounds. -/
def set_fluids_buffer (fluids : List Nat) : List Nat :=
  ((set_fluids_bytes fluids).take (set_fluids_bytes_to_copy fluids)) ++
    List.replicate (10000 - set_fluids_bytes_to_copy fluids) 0

/-- Fluid-selection setup, src/setup/set_fluids.rs (`set_fluids`): acquire the
gate FIRST (line 53), then reject embedded null bytes (lines 56-58), marshal
into the fixed 10000-byte field, call `SETFLUIDSdll`, translate the error
code.  `none` models the out-of-bounds panic of `buffer[bytes_to_copy] = 0`
(line 81), which fires exactly when the null-terminated string fills the
buffer completely (`fluids.length = 9999`). -/
def set_fluids (fluids : List Nat) (env : NativeEnv) :
    Option (Except RefpropError Unit × List Event) :=
  match acquire_lock env with
  | .error err => some (.error err, [.acquire])
  | .ok _ =>
    if 0 ∈ fluids then
      some (.error (.InvalidInput "Fluids string contains null byte"), [.acquire])
    else if set_fluids_bytes_to_copy fluids = 10000 then
      none
    else
      match check_refprop_error env.setfluidsIerr env.errmsgDecoded with
      | (.error err, _) =>
        some (.error err, [.acquire, .nativeCall "SETFLUIDSdll", .nativeCall "ERRMSGdll"])
      | (.ok _, _) =>
        some (.ok (), [.acquire, .nativeCall "SETFLUIDSdll"])

/-- Search-path setup, src/setup/set_path.rs (`set_path`): acquire the gate
(line 43), resolve the path argument -- `path.unwrap_or(&env::var("RPPREFIX")
.unwrap())` evaluates the environment variable EAGERLY, so a missing
`RPPREFIX` (oracle field `rpPathVar = none`) panics (modelled as `none`) even
when `path` is given -- reject embedded null bytes, call `SETPATHdll` (which
has no error-code output), then invoke the error translator with the
HARD-CODED code `0` (lines 66-68). -/
def set_path (path : Option (List Nat)) (env : NativeEnv) :
    Option (Except RefpropError Unit × List Event) :=
  match acquire_lock env with
  | .error err => some (.error err, [.acquire])
  | .ok _ =>
    match env.rpPathVar with
    | none => none
    | some rp =>
      let p := path.getD rp
      if 0 ∈ p then
        some (.error (.InvalidInput "Path contains null byte"), [.acquire])
      else
        match check_refprop_error 0 env.errmsgDecoded with
        | (.error err, _) =>
          some (.error err, [.acquire, .nativeCall "SETPATHdll", .nativeCall "ERRMSGdll"])
        | (.ok _, _) =>
          some (.ok (), [.acquire, .nativeCall "SETPATHdll"])

/-- Molar-mass calculation, src/misc/calc_molar_mass.rs (`calc_molar_mass`):
validate the composition with the FULL validator (line 35), acquire the gate,
call `WMOLdll` (which has no error-code output), and return whatever value the
native call left in `wmm_out` -- no check of any kind on the result
(lines 53-58). -/
def calc_molar_mass (z : List ℚ) (env : NativeEnv) :
    Except RefpropError ℚ × List Event :=
  match validate_composition z with
  | .error err => (.error err, [])
  | .ok _ =>
    match acquire_lock env with
    | .error err => (.error err, [.acquire])
    | .ok _ => (.ok env.wmol, [.acquire, .nativeCall "WMOLdll"])

/-- Mole-to-mass fraction conversion, src/misc/convert_to_mass_fractions.rs
(`convert_to_mass_fractions`): validate, acquire the gate, call `XMASSdll`
(no error-code output), and substitute the positive-molar-mass heuristic
(lines 64-70): fail with `CalculationError` when the computed molar mass is
not positive. -/
def convert_to_mass_fractions (moleFractions : List ℚ) (env : NativeEnv) :
    Except RefpropError (List ℚ × ℚ) × List Event :=
  match validate_composition moleFractions with
  | .error err => (.error err, [])
  | .ok _ =>
    match acquire_lock env with
    | .error err => (.error err, [.acquire])
    | .ok _ =>
      if env.xmassWmix ≤ 0 then
        (.error (.CalculationError "Invalid molar mass calculated"),
         [.acquire, .nativeCall "XMASSdll"])
      else
        (.ok (env.xmassX.take moleFractions.length, env.xmassWmix),
         [.acquire, .nativeCall "XMASSdll"])

/-- Mass-to-mole fraction conversion, src/misc/convert_to_mole_fractions.rs
(`convert_to_mole_fractions`): same structure as the mass conversion, around
`XMOLEdll`, with the same positive-molar-mass heuristic (lines 64-70). -/
def convert_to_mole_fractions (massFractions : List ℚ) (env : NativeEnv) :
    Except RefpropError (List ℚ × ℚ) × List Event :=
  match validate_composition massFractions with
  | .error err => (.error err, [])
  | .ok _ =>
    match acquire_lock env with
    | .error err => (.error err, [.acquire])
    | .ok _ =>
      if env.xmolWmix ≤ 0 then
        (.error (.CalculationError "Invalid molar mass calculated"),
         [.acquire, .nativeCall "XMOLEdll"])
      else
        (.ok (env.xmolX.take massFractions.length, env.xmolWmix),
         [.acquire, .nativeCall "XMOLEdll"])

/-- A benign flash oracle: every output zero, error code zero. -/
def rawZero : FlashRaw :=
  { T := 0, P := 0, D := 0, Dl := 0, Dv := 0,
    x := List.replicate 20 0, y := List.replicate 20 0,
    q := 0, e := 0, h := 0, s := 0, Cv := 0, Cp := 0, w := 0, ierr := 0 }

/-- A benign native session: unpoisoned mutex, zero error codes, positive
molar masses, message buffer decoding to "ok", `RPPREFIX` set. -/
def envBase : NativeEnv :=
  { poisoned := false, flash := rawZero, errmsgDecoded := some "ok",
    wmol := 40, xmassX := List.replicate 20 0, xmassWmix := 28,
    xmolX := List.replicate 20 0, xmolWmix := 28,
    setfluidsIerr := 0, rpPathVar := some [65] }

/-- Oracle on which `PHFLSHdll` reports success but leaves the COMPANION
sentinel (`CP_UNDEFINED`) in the `Cv` output slot. -/
def envC1 : NativeEnv :=
  { envBase with flash := { rawZero with Cv := CP_UNDEFINED, Cp := 7 } }

/-- Oracle on which `WMOLdll` leaves a negative value in the molar-mass
output slot. -/
def envC8 : NativeEnv := { envBase with wmol := -5 }

/-- Oracle for the heuristic witness: `XMASSdll` leaves a non-positive molar
mass, `XMOLEdll` a positive one. -/
def envC8W : NativeEnv := { envBase with xmassWmix := -3, xmolWmix := 2 }

/-- A fluids string of 10001 bytes, one more than the native field width. -/
def overlongFluids : List Nat := List.replicate 10001 65

/-- The result `set_path` produces on a benign session. -/
def setPathOkResult : Except RefpropError Unit × List Event :=
  (Except.ok (), [Event.acquire, Event.nativeCall "SETPATHdll"])

/-- True exactly on the `InvalidInput` constructor. -/
def RefpropError.isInvalid : RefpropError → Bool
  | .InvalidInput _ => true
  | _ => false

@[simp] lemma isInvalidInput_error {α : Type} (e : RefpropError) :
    isInvalidInput (α := α) (.error e) = e.isInvalid := by
  cases e <;> rfl

@[simp] lemma isInvalidInput_ok {α : Type} (a : α) :
    isInvalidInput (.ok a) = false := rfl

lemma validate_ok_iff (z : List ℚ) :
    validate_composition z = Except.ok () ↔
      z.length ≤ 20 ∧ |z.sum - 1| ≤ 1/1000000 := by
  unfold validate_composition
  split_ifs with h1 h2
  · exact iff_of_false (by simp) fun hc => absurd hc.1 (by omega)
  · exact iff_of_false (by simp) fun hc => absurd h2 (not_lt.mpr hc.2)
  · exact iff_of_true rfl ⟨by omega, not_lt.mp h2⟩

lemma validate_error_invalid (z : List ℚ) (e : RefpropError)
    (h : validate_composition z = .error e) : e.isInvalid = true := by
  unfold validate_composition at h
  split_ifs at h <;> cases h <;> rfl

lemma th_flash_kr_reject (T h : ℚ) (z : List ℚ) (kr : Int) (env : NativeEnv)
    (h1 : kr ≠ 1) (h2 : kr ≠ 2) :
    isInvalidInput (th_flash T h z kr env).1 = true ∧
    (th_flash T h z kr env).2 = [] := by
  unfold th_flash
  cases hv : validate_composition z with
  | error e => simp [validate_error_invalid z e hv]
  | ok a => simp [h1, h2, RefpropError.isInvalid]

lemma ph_flash_invalid_z (P h : ℚ) (z : List ℚ) (env : NativeEnv)
    (hz : ¬(z.length ≤ 20 ∧ |z.sum - 1| ≤ 1/1000000)) :
    isInvalidInput (ph_flash P h z env).1 = true ∧
    (ph_flash P h z env).2 = [] := by
  unfold ph_flash
  cases hv : validate_composition z with
  | error e => simp [validate_error_invalid z e hv]
  | ok a => cases a; exact absurd ((validate_ok_iff z).mp hv) hz

lemma calc_molar_mass_invalid_z (z : List ℚ) (env : NativeEnv)
    (hz : ¬(z.length ≤ 20 ∧ |z.sum - 1| ≤ 1/1000000)) :
    isInvalidInput (calc_molar_mass z env).1 = true ∧
    (calc_molar_mass z env).2 = [] := by
  unfold calc_molar_mass
  cases hv : validate_composition z with
  | error e => simp [validate_error_invalid z e hv]
  | ok a => cases a; exact absurd ((validate_ok_iff z).mp hv) hz

/-- C2: `validate_composition` is the exact indicator function of the
predicate "length at most 20 and sum within `1e-6` of 1": it succeeds iff the
predicate holds, and on every other slice it fails with `InvalidInput`.  (It
is a pure Lean function of its input, mirroring the side-effect-free Rust
source.) -/
theorem validate_composition_exact_indicator (z : List ℚ) :
    (validate_composition z = Except.ok () ↔
      z.length ≤ 20 ∧ |z.sum - 1| ≤ 1/1000000) ∧
    (validate_composition z = Except.ok () ∨
      isInvalidInput (validate_composition z) = true) := by
  refine ⟨validate_ok_iff z, ?_⟩
  cases h : validate_composition z with
  | ok a => cases a; exact Or.inl rfl
  | error e => exact Or.inr (by simp [validate_error_invalid z e h])

/-- C4: the error translator succeeds with no message lookup when the code is
zero; on a nonzero code it issues the second native call (`ERRMSGdll`,
recorded by the `Bool`), and fails with `CalculationError` carrying exactly
the decoded text, or with the text-decoding failure (`Utf8Error`) when the
buffer does not decode. -/
theorem check_refprop_error_protocol (ierr : Int) (decoded : Option String) :
    (ierr = 0 → check_refprop_error ierr decoded = (Except.ok (), false)) ∧
    (∀ msg, ierr ≠ 0 → decoded = some msg →
      check_refprop_error ierr decoded =
        (Except.error (RefpropError.CalculationError msg), true)) ∧
    (ierr ≠ 0 → decoded = none →
      check_refprop_error ierr decoded =
        (Except.error RefpropError.Utf8Error, true)) := by
  refine ⟨fun h => ?_, fun msg h hd => ?_, fun h hd => ?_⟩
  · simp [check_refprop_error, h]
  · subst hd; simp [check_refprop_error, h]
  · subst hd; simp [check_refprop_error, h]

/-- Witness for C4 at the codes 0 and 5 with a known message. -/
theorem check_refprop_error_protocol_witness :
    check_refprop_error 0 (some "boom") = (Except.ok (), false) ∧
    check_refprop_error 5 (some "boom") =
      (Except.error (RefpropError.CalculationError "boom"), true) ∧
    check_refprop_error 5 none = (Except.error RefpropError.Utf8Error, true) :=
  ⟨(check_refprop_error_protocol 0 (some "boom")).1 rfl,
   (check_refprop_error_protocol 5 (some "boom")).2.1 "boom" (by decide) rfl,
   (check_refprop_error_protocol 5 none).2.2 (by decide) rfl⟩

/-- C5: the composite-flag encoding `opt0 + 10*opt1 + 100*opt2` is injective
over the legal domain (each option in `[0,4]`), and the base-10 digit
decoding recovers the original triple exactly. -/
theorem encode_flags_injective_decode (a b c a' b' c' : Int)
    (ha0 : 0 ≤ a) (ha4 : a ≤ 4) (hb0 : 0 ≤ b) (hb4 : b ≤ 4)
    (hc0 : 0 ≤ c) (hc4 : c ≤ 4) (ha0' : 0 ≤ a') (ha4' : a' ≤ 4)
    (hb0' : 0 ≤ b') (hb4' : b' ≤ 4) (hc0' : 0 ≤ c') (hc4' : c' ≤ 4) :
    (encode_flags a b c = encode_flags a' b' c' ↔ a = a' ∧ b = b' ∧ c = c') ∧
    encode_flags a b c % 10 = a ∧
    encode_flags a b c / 10 % 10 = b ∧
    encode_flags a b c / 100 = c := by
  unfold encode_flags
  refine ⟨⟨fun h => by omega, fun h => by omega⟩, by omega, by omega, by omega⟩

/-- Witness for C5 at the triples (1,2,3) and (3,2,1). -/
theorem encode_flags_injective_decode_witness :
    (encode_flags 1 2 3 = encode_flags 3 2 1 ↔
      (1 : Int) = 3 ∧ (2 : Int) = 2 ∧ (3 : Int) = 1) ∧
    encode_flags 1 2 3 % 10 = 1 ∧
    encode_flags 1 2 3 / 10 % 10 = 2 ∧
    encode_flags 1 2 3 / 100 = 3 :=
  encode_flags_injective_decode 1 2 3 3 2 1 (by decide) (by decide) (by decide)
    (by decide) (by decide) (by decide) (by decide) (by decide) (by decide)
    (by decide) (by decide) (by decide)

/-- C9: `th_flash` accepts only 1 and 2 for the root-selection flag `kr`: any
other value yields `InvalidInput` with an empty event trace (the gate is
never acquired, no native call is made); with a legal `kr`, a valid
composition and a benign native session the call succeeds. -/
theorem th_flash_kr_validation (T h : ℚ) (z : List ℚ) (kr : Int)
    (env : NativeEnv) :
    (kr ≠ 1 → kr ≠ 2 →
      isInvalidInput (th_flash T h z kr env).1 = true ∧
      (th_flash T h z kr env).2 = []) ∧
    ((kr = 1 ∨ kr = 2) → validate_composition z = Except.ok () →
      env.poisoned = false → env.flash.ierr = 0 →
      ∃ out, (th_flash T h z kr env).1 = Except.ok out) := by
  constructor
  · exact th_flash_kr_reject T h z kr env
  · intro hkr hv hp hierr
    unfold th_flash
    rw [hv]
    have hkr2 : ¬(kr ≠ 1 ∧ kr ≠ 2) := by rcases hkr with h | h <;> simp [h]
    rw [if_neg hkr2]
    simp [acquire_lock, hp, check_refprop_error, hierr]

lemma validate_one : validate_composition [1] = Except.ok () :=
  (validate_ok_iff [1]).mpr (by norm_num)

/-- Witness for C9 at `kr = 7` (rejected) and `kr = 1` (accepted). -/
theorem th_flash_kr_validation_witness :
    (isInvalidInput (th_flash 300 5 [1] 7 envBase).1 = true ∧
      (th_flash 300 5 [1] 7 envBase).2 = []) ∧
    (∃ out, (th_flash 300 5 [1] 1 envBase).1 = Except.ok out) :=
  ⟨(th_flash_kr_validation 300 5 [1] 7 envBase).1 (by decide) (by decide),
   (th_flash_kr_validation 300 5 [1] 1 envBase).2 (Or.inl rfl) validate_one
     rfl rfl⟩

/-- C1 counterexample: on an oracle where the native call succeeds and leaves
the COMPANION sentinel `CP_UNDEFINED` in the `Cv` slot, `ph_flash` keeps the
sentinel as a PRESENT value (`some CP_UNDEFINED`) instead of converting it to
an absent one -- `ph_flash` compares `Cv` against `CV_UNDEFINED` only. -/
theorem ph_flash_keeps_companion_sentinel :
    (ph_flash 0 0 [1] envC1).1.map FlashOutput.Cv =
      Except.ok (some CP_UNDEFINED) := by
  unfold ph_flash
  rw [validate_one]
  norm_num [acquire_lock, envC1, envBase, rawZero, check_refprop_error,
    CP_UNDEFINED, CV_UNDEFINED]
  rfl

/-- C1 amended: only `ab_flash` compares each heat-capacity output against
both sentinels; `ph_flash` (like the other per-pair flash routines) compares
each field against its own sentinel only.  In all cases a non-sentinel value
is kept present exactly. -/
theorem flash_sentinel_policy (P h a b : ℚ) (z : List ℚ)
    (imass : Basis) (kph : Phase) (krkq : KrKqFlag) (env : NativeEnv)
    (hp : env.poisoned = false) (hi : env.flash.ierr = 0)
    (hv : validate_composition z = Except.ok ()) :
    (∃ out, (ph_flash P h z env).1 = Except.ok out ∧
      (out.Cv = none ↔ env.flash.Cv = CV_UNDEFINED) ∧
      (out.Cp = none ↔ env.flash.Cp = CP_UNDEFINED) ∧
      (out.Cv = none ∨ out.Cv = some env.flash.Cv) ∧
      (out.Cp = none ∨ out.Cp = some env.flash.Cp)) ∧
    (∃ out,
      (ab_flash ['P', 'H'] a b z imass kph krkq env).1 = Except.ok out ∧
      (out.Cv = none ↔
        (env.flash.Cv = CV_UNDEFINED ∨ env.flash.Cv = CP_UNDEFINED)) ∧
      (out.Cp = none ↔
        (env.flash.Cp = CP_UNDEFINED ∨ env.flash.Cp = CV_UNDEFINED)) ∧
      (out.Cv = none ∨ out.Cv = some env.flash.Cv) ∧
      (out.Cp = none ∨ out.Cp = some env.flash.Cp)) := by
  constructor
  · unfold ph_flash
    rw [hv]
    by_cases hCv : env.flash.Cv = CV_UNDEFINED <;>
      by_cases hCp : env.flash.Cp = CP_UNDEFINED <;>
        simp [acquire_lock, hp, check_refprop_error, hi, hCv, hCp]
  · unfold ab_flash
    rw [if_neg (by decide), if_neg (by decide), hv]
    by_cases hCv1 : env.flash.Cv = CV_UNDEFINED <;>
      by_cases hCv2 : env.flash.Cv = CP_UNDEFINED <;>
        by_cases hCp1 : env.flash.Cp = CP_UNDEFINED <;>
          by_cases hCp2 : env.flash.Cp = CV_UNDEFINED <;>
            simp [acquire_lock, hp, check_refprop_error, hi, hCv1, hCv2,
              hCp1, hCp2]

/-- Witness for C1 (amended) on the benign oracle `envBase`. -/
theorem flash_sentinel_policy_witness :
    (∃ out, (ph_flash 1 2 [1] envBase).1 = Except.ok out ∧
      (out.Cv = none ↔ envBase.flash.Cv = CV_UNDEFINED) ∧
      (out.Cp = none ↔ envBase.flash.Cp = CP_UNDEFINED) ∧
      (out.Cv = none ∨ out.Cv = some envBase.flash.Cv) ∧
      (out.Cp = none ∨ out.Cp = some envBase.flash.Cp)) ∧
    (∃ out,
      (ab_flash ['P', 'H'] 3 4 [1] Basis.Molar Phase.Unknown KrKqFlag.Default
        envBase).1 = Except.ok out ∧
      (out.Cv = none ↔
        (envBase.flash.Cv = CV_UNDEFINED ∨ envBase.flash.Cv = CP_UNDEFINED)) ∧
      (out.Cp = none ↔
        (envBase.flash.Cp = CP_UNDEFINED ∨ envBase.flash.Cp = CV_UNDEFINED)) ∧
      (out.Cv = none ∨ out.Cv = some envBase.flash.Cv) ∧
      (out.Cp = none ∨ out.Cp = some envBase.flash.Cp)) :=
  flash_sentinel_policy 1 2 3 4 [1] Basis.Molar Phase.Unknown KrKqFlag.Default
    envBase rfl rfl validate_one

/-- C3 counterexample: `set_fluids` on a string with an embedded null byte
returns `InvalidInput`, but only AFTER acquiring the process-wide gate: the
event trace contains `Event.acquire`. -/
theorem set_fluids_null_byte_acquires_gate :
    set_fluids [65, 0, 66] envBase =
      some (Except.error
              (RefpropError.InvalidInput "Fluids string contains null byte"),
            [Event.acquire]) := by
  unfold set_fluids
  simp [acquire_lock, envBase]

/-- C3 amended: composition, flag-range and property-code shape violations
are rejected with `InvalidInput` before the gate is acquired and before any
native call (empty event trace); but the embedded-null-byte check of
`set_fluids` runs only after the gate is acquired -- the operation still
returns `InvalidInput` and still makes no native call, yet the trace shows
the acquisition. -/
theorem shape_violation_gate_policy (P h T a b : ℚ) (z : List ℚ) (kr : Int)
    (ab : List Char) (imass : Basis) (kph : Phase) (krkq : KrKqFlag)
    (fluids : List Nat) (env : NativeEnv) :
    (¬(z.length ≤ 20 ∧ |z.sum - 1| ≤ 1/1000000) →
      isInvalidInput (ph_flash P h z env).1 = true ∧
      (ph_flash P h z env).2 = []) ∧
    (kr ≠ 1 → kr ≠ 2 →
      isInvalidInput (th_flash T h z kr env).1 = true ∧
      (th_flash T h z kr env).2 = []) ∧
    (ab.length ≠ 2 →
      isInvalidInput (ab_flash ab a b z imass kph krkq env).1 = true ∧
      (ab_flash ab a b z imass kph krkq env).2 = []) ∧
    (env.poisoned = false → 0 ∈ fluids →
      set_fluids fluids env =
        some (Except.error
                (RefpropError.InvalidInput "Fluids string contains null byte"),
              [Event.acquire])) := by
  refine ⟨ph_flash_invalid_z P h z env, th_flash_kr_reject T h z kr env,
    fun hlen => ?_, fun hp h0 => ?_⟩
  · unfold ab_flash
    rw [if_pos hlen]
    simp [RefpropError.isInvalid]
  · unfold set_fluids
    simp [acquire_lock, hp, h0]

/-- Witness for C3 (amended) at a bad composition, a bad flag, a bad
property-code string and a null-containing fluids string. -/
theorem shape_violation_gate_policy_witness :
    (isInvalidInput (ph_flash 0 0 [5] envBase).1 = true ∧
      (ph_flash 0 0 [5] envBase).2 = []) ∧
    (isInvalidInput (th_flash 0 0 [5] 3 envBase).1 = true ∧
      (th_flash 0 0 [5] 3 envBase).2 = []) ∧
    (isInvalidInput
        (ab_flash ['P'] 0 0 [5] Basis.Molar Phase.Unknown KrKqFlag.Default
          envBase).1 = true ∧
      (ab_flash ['P'] 0 0 [5] Basis.Molar Phase.Unknown KrKqFlag.Default
          envBase).2 = []) ∧
    set_fluids [0] envBase =
      some (Except.error
              (RefpropError.InvalidInput "Fluids string contains null byte"),
            [Event.acquire]) := by
  have H := shape_violation_gate_policy 0 0 0 0 0 [5] 3 ['P'] Basis.Molar
    Phase.Unknown KrKqFlag.Default [0] envBase
  have hz : ¬(([5] : List ℚ).length ≤ 20 ∧ |([5] : List ℚ).sum - 1| ≤ 1/1000000) := by
    norm_num
  exact ⟨H.1 hz, H.2.1 (by decide) (by decide), H.2.2.1 (by decide),
    H.2.2.2 rfl (by decide)⟩

lemma set_fluids_overlong_core (fluids : List Nat) (env : NativeEnv)
    (hp : env.poisoned = false) (h0 : 0 ∉ fluids)
    (hlen : fluids.length > 10000) (hierr : env.setfluidsIerr = 0) :
    set_fluids fluids env =
      some (Except.ok (), [Event.acquire, Event.nativeCall "SETFLUIDSdll"]) ∧
    set_fluids_buffer fluids = fluids.take 9999 ++ [0] := by
  have hbl : (set_fluids_bytes fluids).length = fluids.length + 1 := by
    simp [set_fluids_bytes]
  have hbtc : set_fluids_bytes_to_copy fluids = 9999 := by
    unfold set_fluids_bytes_to_copy
    rw [hbl, if_pos (by omega)]
  constructor
  · unfold set_fluids
    simp [acquire_lock, hp, h0, hbtc, check_refprop_error, hierr]
  · unfold set_fluids_buffer
    rw [hbtc]
    unfold set_fluids_bytes
    rw [List.take_append_of_le_length (by omega)]
    norm_num

/-- C6 amended: a fluid-specification string longer than the 10000-character
native field is NOT rejected: `set_fluids` proceeds, silently passing the
native routine only the first 9999 bytes followed by a null terminator, and
(on a benign session) succeeds. -/
theorem set_fluids_overlong_truncates (fluids : List Nat) (env : NativeEnv)
    (hp : env.poisoned = false) (h0 : 0 ∉ fluids)
    (hlen : fluids.length > 10000) (hierr : env.setfluidsIerr = 0) :
    set_fluids fluids env =
      some (Except.ok (), [Event.acquire, Event.nativeCall "SETFLUIDSdll"]) ∧
    set_fluids_buffer fluids = fluids.take 9999 ++ [0] :=
  set_fluids_overlong_core fluids env hp h0 hlen hierr

/-- Witness for C6 (amended) at a 20000-byte string. -/
theorem set_fluids_overlong_truncates_witness :
    set_fluids (List.replicate 20000 66) envBase =
      some (Except.ok (), [Event.acquire, Event.nativeCall "SETFLUIDSdll"]) ∧
    set_fluids_buffer (List.replicate 20000 66) =
      (List.replicate 20000 66).take 9999 ++ [0] :=
  set_fluids_overlong_truncates (List.replicate 20000 66) envBase rfl
    (by simp only [List.mem_replicate]; omega)
    (by simp only [List.length_replicate]; omega) rfl

/-- C6 counterexample: a 10001-character fluids string is accepted, not
rejected -- `set_fluids` succeeds and the native call receives a silently
truncated field: 9999 copies of the byte followed by a null terminator. -/
theorem set_fluids_overlong_not_rejected :
    set_fluids overlongFluids envBase =
      some (Except.ok (), [Event.acquire, Event.nativeCall "SETFLUIDSdll"]) ∧
    set_fluids_buffer overlongFluids = List.replicate 9999 65 ++ [0] ∧
    overlongFluids.length = 10001 := by
  have h := set_fluids_overlong_core overlongFluids envBase rfl
    (by simp only [overlongFluids, List.mem_replicate]; omega)
    (by simp only [overlongFluids, List.length_replicate]; omega) rfl
  refine ⟨h.1, ?_, by simp only [overlongFluids, List.length_replicate]⟩
  rw [h.2]
  have hsplit : overlongFluids =
      List.replicate 9999 65 ++ List.replicate 2 65 := by
    unfold overlongFluids
    rw [← List.replicate_add]
  have htake : overlongFluids.take 9999 = List.replicate 9999 65 := by
    rw [hsplit,
      List.take_append_of_le_length
        (by simp only [List.length_replicate]; omega),
      List.take_of_length_le (by simp only [List.length_replicate]; omega)]
  rw [htake]

/-- C7 counterexample: `calc_molar_mass` on the length-1 composition `[4]`
(well within the 20-slot limit, but unnormalized) fails with `InvalidInput`:
the normalization check is NOT skipped for the molar-mass operation. -/
theorem calc_molar_mass_rejects_unnormalized :
    isInvalidInput (calc_molar_mass [4] envBase).1 = true ∧
    ([4] : List ℚ).length ≤ 20 := by
  refine ⟨(calc_molar_mass_invalid_z [4] envBase ?_).1, by norm_num⟩
  norm_num

/-- C7 amended: `calc_molar_mass` applies the full composition validator,
normalization check included: any composition whose sum deviates from 1 by
more than `1e-6` is rejected with `InvalidInput` before the gate, and a valid
composition is passed to the native call. -/
theorem calc_molar_mass_validates (z : List ℚ) (env : NativeEnv) :
    (¬(z.length ≤ 20 ∧ |z.sum - 1| ≤ 1/1000000) →
      isInvalidInput (calc_molar_mass z env).1 = true ∧
      (calc_molar_mass z env).2 = []) ∧
    (validate_composition z = Except.ok () → env.poisoned = false →
      calc_molar_mass z env =
        (Except.ok env.wmol, [Event.acquire, Event.nativeCall "WMOLdll"])) := by
  refine ⟨calc_molar_mass_invalid_z z env, fun hv hp => ?_⟩
  unfold calc_molar_mass
  rw [hv]
  simp [acquire_lock, hp]

/-- Witness for C7 (amended) at the compositions `[3]` and `[1]`. -/
theorem calc_molar_mass_validates_witness :
    (isInvalidInput (calc_molar_mass [3] envBase).1 = true ∧
      (calc_molar_mass [3] envBase).2 = []) ∧
    calc_molar_mass [1] envBase =
      (Except.ok envBase.wmol, [Event.acquire, Event.nativeCall "WMOLdll"]) :=
  ⟨(calc_molar_mass_validates [3] envBase).1 (by norm_num),
   (calc_molar_mass_validates [1] envBase).2 validate_one rfl⟩

/-- C8 counterexample: on an oracle where `WMOLdll` leaves the non-positive
value -5 in the output slot, `calc_molar_mass` SUCCEEDS with that value: the
molar-mass operation applies no positivity heuristic at all. -/
theorem calc_molar_mass_no_positivity_check :
    (calc_molar_mass [1] envC8).1 = Except.ok (-5) ∧ ¬(0 < (-5 : ℚ)) := by
  constructor
  · unfold calc_molar_mass
    rw [validate_one]
    rfl
  · norm_num

/-- C8 amended: the "result must be a positive molar mass" heuristic lives in
the fraction-conversion routines, not in `calc_molar_mass`:
`calc_molar_mass` returns the native value unconditionally, while
`convert_to_mass_fractions` and `convert_to_mole_fractions` fail with
`CalculationError` exactly when the molar mass computed by the native call is
not positive. -/
theorem positive_mass_heuristic_location (z : List ℚ) (env : NativeEnv)
    (hv : validate_composition z = Except.ok ()) (hp : env.poisoned = false) :
    (calc_molar_mass z env).1 = Except.ok env.wmol ∧
    (env.xmassWmix ≤ 0 →
      isCalcError (convert_to_mass_fractions z env).1 = true) ∧
    (0 < env.xmassWmix →
      (convert_to_mass_fractions z env).1 =
        Except.ok (env.xmassX.take z.length, env.xmassWmix)) ∧
    (env.xmolWmix ≤ 0 →
      isCalcError (convert_to_mole_fractions z env).1 = true) ∧
    (0 < env.xmolWmix →
      (convert_to_mole_fractions z env).1 =
        Except.ok (env.xmolX.take z.length, env.xmolWmix)) := by
  refine ⟨?_, fun hw => ?_, fun hw => ?_, fun hw => ?_, fun hw => ?_⟩
  · unfold calc_molar_mass
    rw [hv]
    simp [acquire_lock, hp]
  · unfold convert_to_mass_fractions
    rw [hv]
    simp [acquire_lock, hp, hw, isCalcError]
  · unfold convert_to_mass_fractions
    rw [hv]
    simp [acquire_lock, hp, not_le.mpr hw]
  · unfold convert_to_mole_fractions
    rw [hv]
    simp [acquire_lock, hp, hw, isCalcError]
  · unfold convert_to_mole_fractions
    rw [hv]
    simp [acquire_lock, hp, not_le.mpr hw]

/-- Witness for C8 (amended) on an oracle with a non-positive mass-conversion
molar mass and a positive mole-conversion molar mass. -/
theorem positive_mass_heuristic_location_witness :
    (calc_molar_mass [1] envC8W).1 = Except.ok envC8W.wmol ∧
    (envC8W.xmassWmix ≤ 0 →
      isCalcError (convert_to_mass_fractions [1] envC8W).1 = true) ∧
    (0 < envC8W.xmassWmix →
      (convert_to_mass_fractions [1] envC8W).1 =
        Except.ok (envC8W.xmassX.take ([(1 : ℚ)] : List ℚ).length,
          envC8W.xmassWmix)) ∧
    (envC8W.xmolWmix ≤ 0 →
      isCalcError (convert_to_mole_fractions [1] envC8W).1 = true) ∧
    (0 < envC8W.xmolWmix →
      (convert_to_mole_fractions [1] envC8W).1 =
        Except.ok (envC8W.xmolX.take ([(1 : ℚ)] : List ℚ).length,
          envC8W.xmolWmix)) :=
  positive_mass_heuristic_location [1] envC8W validate_one rfl

/-- C10: `set_path` invokes the error translator with the hard-coded code 0,
so whatever the native session does, it never returns a `CalculationError`
(nor a text-decoding failure), and the message-retrieval entry point
`ERRMSGdll` is never called. -/
theorem set_path_never_calculation_error (path : Option (List Nat))
    (env : NativeEnv) (r : Except RefpropError Unit × List Event)
    (hr : set_path path env = some r) :
    isCalcError r.1 = false ∧ r.1 ≠ Except.error RefpropError.Utf8Error ∧
    Event.nativeCall "ERRMSGdll" ∉ r.2 := by
  unfold set_path at hr
  cases hb : env.poisoned with
  | true =>
    simp [acquire_lock, hb] at hr
    subst hr
    exact ⟨rfl, by simp, by decide⟩
  | false =>
    cases hrp : env.rpPathVar with
    | none => simp [acquire_lock, hb, hrp] at hr
    | some rp =>
      simp [acquire_lock, hb, hrp, check_refprop_error] at hr
      split_ifs at hr with h0
      · simp at hr
        subst hr
        exact ⟨rfl, by simp, by decide⟩
      · simp at hr
        subst hr
        exact ⟨rfl, by simp, by decide⟩

/-- Witness for C10 at an explicit path on a benign session. -/
theorem set_path_never_calculation_error_witness :
    isCalcError setPathOkResult.1 = false ∧
    setPathOkResult.1 ≠ Except.error RefpropError.Utf8Error ∧
    Event.nativeCall "ERRMSGdll" ∉ setPathOkResult.2 :=
  set_path_never_calculation_error (some [65]) envBase setPathOkResult rfl

end RefpropSys
